import Mathlib

/-!
Verification of the tool-orchestration and streaming-chat bridge of the
rijksmuseum-mcp-client repository.

The definitions below are a shallow embedding of the TypeScript source:

* `MCPClient.callTool` (retry on status 500, response-envelope parsing),
* `MCPClient.matchesToolIntent` / the matching loop of
  `MCPClient.getRelevantContext` (trigger-phrase intent matching),
* `MCPClient.extractToolArgs` (pattern-based argument extraction),
* the per-tool result formatters and the generic fallback rendering,
* `MCPClient.processMessage` (apology short-circuit and streaming),
* `ClaudeService.streamChat` / `OllamaService.streamChat` (turn history),
* `MCPClient.searchArtworks` / `MCPClient.getArtworkDetails`
  (recent-result cache mutation), and `clearChatHistory`.

External runtime primitives (the JSON parser `JSON.parse`, the printer
`JSON.stringify`, the transport, the token stream of the model backend)
are parameters of the embedding, so every theorem quantifies over them.
-/

/-! ### JavaScript string primitives used by the source -/

/-- The characters matched by the regex class `\s` (ASCII part), used by
`.replace(..)` patterns and `.trim()` in the source. -/
def isJsWhitespace (c : Char) : Bool :=
  c = ' ' || c = '\t' || c = '\n' || c = '\r' || c = '\x0b' || c = '\x0c'

/-- Substring test on character lists: JavaScript `String.prototype.includes`. -/
def charsContain (pat : List Char) : List Char → Bool
  | [] => pat.isEmpty
  | c :: rest => pat.isPrefixOf (c :: rest) || charsContain pat rest

/-- JavaScript `s.includes(pat)`. -/
def strIncludes (s pat : String) : Bool :=
  charsContain pat.data s.data

/-- JavaScript `s.toLowerCase()` (ASCII-faithful). -/
def toLowerCase (s : String) : String :=
  String.mk (s.data.map Char.toLower)

/-- JavaScript `s.trim()`: strip whitespace from both ends. -/
def jsTrim (s : List Char) : List Char :=
  ((s.dropWhile isJsWhitespace).reverse.dropWhile isJsWhitespace).reverse

/-! ### Data model -/

/-- A conversation-turn role (user or assistant, from `types.ts`). -/
inductive Role where
  | user
  | assistant
deriving DecidableEq, Repr

/-- The `LLMMessage` interface from `src/services/llm/types.ts`. -/
structure LLMMessage where
  role : Role
  content : String
deriving DecidableEq, Repr

/-- The `MCPTool` interface of the main process file: a discovered tool descriptor
(the schema hint `inputSchema` is irrelevant to every claim and omitted). -/
structure MCPTool where
  name : String
  description : Option String := none
deriving DecidableEq, Repr

/-- The `Artwork` interface of the main process file. -/
structure Artwork where
  id : String
  objectNumber : String
  title : String
  artist : String
  imageUrl : Option String := none
  description : Option String := none
  date : Option String := none
  materials : Option (List String) := none
  dimensions : Option (List String) := none
deriving DecidableEq, Repr

/-- One content block of a tool-call response envelope. -/
structure ContentBlock where
  type : String
  text : String
deriving DecidableEq, Repr

/-- Structured (parsed JSON) data, the result of a successful
`JSON.parse` on the text of a response envelope. -/
inductive Json where
  | null
  | bool (b : Bool)
  | num (n : Int)
  | str (s : String)
  | arr (items : List Json)
  | obj (fields : List (String × Json))

/-! ### Tool Invoker: `MCPClient.callTool` -/

/-- The constant `MAX_RETRIES` of `MCPClient.callTool`. -/
def MAX_RETRIES : Nat := 3

/-- The constant `RETRY_DELAY` of `MCPClient.callTool` (milliseconds). -/
def RETRY_DELAY : Nat := 1000

/-- What the transport reports for one attempt of `this.client.request`:
either a response envelope (whose `content` may be absent or not an
array, modelled as `none`), or a thrown error carrying an optional
numeric `status`. -/
inductive AttemptOutcome where
  | reply (content : Option (List ContentBlock))
  | failure (status : Option Nat)
deriving DecidableEq, Repr

/-- A successful `callTool` value: parsed JSON, or the raw joined text
when `JSON.parse` failed. -/
inductive ToolValue (J : Type) where
  | parsed (value : J)
  | raw (text : String)
deriving DecidableEq, Repr

/-- The errors `callTool` can propagate. -/
inductive ToolCallError where
  | invalidResponseFormat
  | retryExhausted500
  | transportError (status : Option Nat)
deriving DecidableEq, Repr

/-- Observable trace of one `callTool` invocation: final result, total
number of attempts issued to the transport, and the list of waits (in
milliseconds) performed before retries. -/
structure ToolCallTrace (J : Type) where
  result : Except ToolCallError (ToolValue J)
  attempts : Nat
  delays : List Nat
deriving Repr

/-- The extraction `response.content.filter(text-typed).map(text).join(newline)` of `callTool`. -/
def joinedTextContent (content : List ContentBlock) : String :=
  String.intercalate "\n" ((content.filter (fun b => b.type == "text")).map (fun b => b.text))

/-- Shallow embedding of `MCPClient.callTool`.  `parseJson` stands for
`JSON.parse` (`none` when it throws), `transport` maps the attempt
index (the `retryCount` at which the request is issued) to what the
transport does. -/
def callTool {J : Type} (parseJson : String → Option J)
    (transport : Nat → AttemptOutcome) (retryCount : Nat) : ToolCallTrace J :=
  match transport retryCount with
  | .reply content =>
    match content with
    | some blocks =>
      let textContent := joinedTextContent blocks
      if textContent ≠ "" then
        match parseJson textContent with
        | some value => ⟨.ok (.parsed value), 1, []⟩
        | none => ⟨.ok (.raw textContent), 1, []⟩
      else ⟨.error .invalidResponseFormat, 1, []⟩
    | none => ⟨.error .invalidResponseFormat, 1, []⟩
  | .failure status =>
    if status = some 500 then
      if h : retryCount < MAX_RETRIES then
        let rest := callTool parseJson transport (retryCount + 1)
        ⟨rest.result, rest.attempts + 1, RETRY_DELAY :: rest.delays⟩
      else ⟨.error .retryExhausted500, 1, []⟩
    else ⟨.error (.transportError status), 1, []⟩
termination_by MAX_RETRIES + 1 - retryCount
decreasing_by simp only [MAX_RETRIES] at *; omega

/-! ### Intent Matcher: `MCPClient.matchesToolIntent` and the matching
loop of `MCPClient.getRelevantContext` -/

/-- The fixed `toolTriggers` map of `MCPClient.matchesToolIntent`;
a name outside the map yields the empty trigger list (`|| []`). -/
def toolTriggers (name : String) : List String :=
  if name = "search_artwork" then
    ["search", "find", "look for", "show me", "info on", "information on", "tell me about"]
  else if name = "get_artwork_details" then
    ["details", "tell me about", "information about", "more about"]
  else if name = "get_artwork_image" then
    ["show image", "display image", "view image"]
  else if name = "get_user_sets" then
    ["show collections", "user collections", "sets"]
  else if name = "get_user_set_details" then
    ["collection details", "set details"]
  else if name = "open_image_in_browser" then
    ["open image", "open in browser"]
  else if name = "get_artist_timeline" then
    ["timeline", "chronological", "artist history"]
  else []

/-- Embedding of `MCPClient.matchesToolIntent`: some trigger phrase of the tool is a
substring of the lower-cased message. -/
def matchesToolIntent (message : String) (tool : MCPTool) : Bool :=
  (toolTriggers tool.name).any (fun trigger => strIncludes (toLowerCase message) trigger)

/-- The tool-selection part of the `for (const tool of this.availableTools)`
loop in `MCPClient.getRelevantContext`: the first matching tool wins. -/
def findMatchingTool (message : String) : List MCPTool → Option MCPTool
  | [] => none
  | tool :: rest =>
    if matchesToolIntent message tool then some tool
    else findMatchingTool message rest

/-! ### Language-Model Port: `ClaudeService.streamChat` and
`OllamaService.streamChat` (identical history / request behaviour) -/

/-- The message content sent as the final request element: the context
prefix plus the user message when a context is supplied, the bare
message otherwise. -/
def combineContext (context : Option String) (message : String) : String :=
  match context with
  | some c => "Context: " ++ c ++ "\n\nUser: " ++ message
  | none => message

/-- What the model backend stream does: the token chunks it delivers, and
`some errorMessage` when the call throws (possibly mid-stream). -/
structure StreamOutcome where
  tokens : List String
  failure : Option String
deriving DecidableEq, Repr

/-- Observable result of one `streamChat` call: the message history of
the service afterwards, the outbound `messages` array of the request, the
relayed tokens, the `onComplete` argument (if any) and the `onError`
message (if any). -/
structure StreamChatResult where
  history : List LLMMessage
  request : List LLMMessage
  emittedTokens : List String
  completion : Option String
  errorEvent : Option String
deriving DecidableEq, Repr

/-- Shallow embedding of `ClaudeService.streamChat` and
`OllamaService.streamChat` (their history and request construction are
identical): push the user turn, issue the request built from
the pushed history plus a final user element with the combined text, relay
tokens, and push the assistant turn only on completion. -/
def streamChat (history : List LLMMessage) (message : String)
    (context : Option String) (outcome : StreamOutcome) : StreamChatResult :=
  let pushed := history ++ [⟨.user, message⟩]
  let request := pushed ++ [⟨.user, combineContext context message⟩]
  match outcome.failure with
  | none =>
    let fullResponse := String.join outcome.tokens
    ⟨pushed ++ [⟨.assistant, fullResponse⟩], request, outcome.tokens, some fullResponse, none⟩
  | some e => ⟨pushed, request, outcome.tokens, none, some e⟩

/-- Embedding of `ClaudeService.clearHistory` and `OllamaService.clearHistory`:
`this.messageHistory = []`. -/
def clearHistory (history : List LLMMessage) : List LLMMessage :=
  []

/-! ### Recent-result cache: `MCPClient.searchArtworks` and
`MCPClient.getArtworkDetails` -/

/-- JavaScript `Array.prototype.findIndex` (with `none` for `-1`). -/
def findIndex (p : α → Bool) : List α → Option Nat
  | [] => none
  | a :: rest => if p a then some 0 else (findIndex p rest).map (· + 1)

/-- The cache mutation of `MCPClient.getArtworkDetails`: find the entry
whose `objectNumber` equals the requested one; replace it if present,
append the response otherwise. -/
def getArtworkDetailsUpsert (cache : List Artwork) (objectNumber : String)
    (response : Artwork) : List Artwork :=
  match findIndex (fun a => a.objectNumber == objectNumber) cache with
  | some i => cache.set i response
  | none => cache ++ [response]

/-- The cache mutation of `MCPClient.searchArtworks`:
`this.recentArtworks = response` — wholesale replacement. -/
def searchArtworksCacheUpdate (cache : List Artwork) (response : List Artwork) :
    List Artwork :=
  response

/-- Number of cache entries carrying a given identifier. -/
def countById (objectNumber : String) (cache : List Artwork) : Nat :=
  (cache.filter (fun a => a.objectNumber == objectNumber)).length

/-! ### Client session state and `MCPClient.clearChatHistory` -/

/-- The mutable state of the orchestration layer: the recent-result
cache and tool registry of `MCPClient`, plus the `messageHistory` the
LLM service holds. -/
structure MCPClientState where
  recentArtworks : List Artwork
  availableTools : List MCPTool
  llmHistory : List LLMMessage

/-- Embedding of `MCPClient.clearChatHistory`: delegates to `this.llm.clearHistory()`;
touches nothing else. -/
def clearChatHistory (st : MCPClientState) : MCPClientState :=
  { st with llmHistory := clearHistory st.llmHistory }

/-! ### Argument extraction: `MCPClient.extractToolArgs`

The regular expressions of the source are modelled by dedicated
matchers.  Alternatives inside each pattern start with pairwise
distinct characters, so at most one alternative can match at a given
position and the JavaScript alternation order collapses to `find?`. -/

/-- The call arguments `extractToolArgs` synthesizes, one shape per
branch of its `switch` (optional JSON fields are `Option`). -/
inductive ToolArgs where
  | searchArgs (query : String) (pageSize : Nat) (imgonly : Option Bool) (s : Option String)
  | detailsArgs (objectNumber : String)
  | imageArgs (objectNumber : String)
  | userSetsArgs (page : Nat) (pageSize : Nat)
  | setDetailsArgs (setId : String)
  | timelineArgs (artist : String) (maxWorks : Nat)
  | openImageArgs (imageUrl : String)
  | emptyArgs
deriving DecidableEq, Repr

/-- The replacement of the anchored pattern (search, find, show,
display or get, then a whitespace run) by the empty string, on the
already lower-cased message: strip one leading trigger word (first
matching alternative) and the whitespace run after it. -/
def stripLeadingTrigger (s : List Char) : List Char :=
  match ["search", "find", "show", "display", "get"].find?
      (fun w => w.data.isPrefixOf s) with
  | some w => (s.drop w.data.length).dropWhile isJsWhitespace
  | none => s

/-- The alternatives of `/(?:tell me about|info on|information on|information about)\s*/gi`. -/
def fillerPhrases : List String :=
  ["tell me about", "info on", "information on", "information about"]

/-- Global replacement of the filler phrases (each with its trailing
whitespace run) by the empty string; `fuel` bounds the scan (callers
pass the length of the list, and every step consumes one character or
more). -/
def removeFillerPhrases : Nat → List Char → List Char
  | 0, s => s
  | _ + 1, [] => []
  | fuel + 1, c :: rest =>
    match fillerPhrases.find? (fun w => w.data.isPrefixOf (c :: rest)) with
    | some w =>
      removeFillerPhrases fuel (((c :: rest).drop w.data.length).dropWhile isJsWhitespace)
    | none => c :: removeFillerPhrases fuel rest

/-- The global whitespace-run replacement: collapse each run to one space. -/
def normalizeSpaces : Nat → List Char → List Char
  | 0, s => s
  | _ + 1, [] => []
  | fuel + 1, c :: rest =>
    if isJsWhitespace c then ' ' :: normalizeSpaces fuel (rest.dropWhile isJsWhitespace)
    else c :: normalizeSpaces fuel rest

/-- The global quote replacement: drop double and single quotes. -/
def removeQuotes (s : List Char) : List Char :=
  s.filter (fun c => !(c = Char.ofNat 34 || c = Char.ofNat 39))

/-- ASCII letter, the class `[A-Z]` under the `i` flag. -/
def isAsciiLetter (c : Char) : Bool :=
  ('a' ≤ c && c ≤ 'z') || ('A' ≤ c && c ≤ 'Z')

/-- Try `/[A-Z]+-[A-Z]-\d+/i` anchored at the head of `s`, returning the
matched text.  The letter and digit runs are greedy; backtracking
cannot help because a shorter run would place a letter (or digit)
where `-` (or the end of the digits) is required. -/
def matchObjectNumberAt (s : List Char) : Option (List Char) :=
  let letters := s.takeWhile isAsciiLetter
  if letters.isEmpty then none
  else
    match s.drop letters.length with
    | '-' :: afterDash =>
      match afterDash with
      | c :: afterLetter =>
        if isAsciiLetter c then
          match afterLetter with
          | '-' :: afterDash2 =>
            let digits := afterDash2.takeWhile Char.isDigit
            if digits.isEmpty then none
            else some (letters ++ '-' :: c :: '-' :: digits)
          | _ => none
        else none
      | [] => none
    | _ => none

/-- Leftmost-match scan of a position matcher, as `String.prototype.match`
does with an unanchored pattern. -/
def scanMatch (m : List Char → Option (List Char)) : List Char → Option (List Char)
  | [] => m []
  | c :: rest =>
    match m (c :: rest) with
    | some r => some r
    | none => scanMatch m rest

/-- The object-number search over the whole string, returning the matched text. -/
def findObjectNumber (s : List Char) : Option (List Char) :=
  scanMatch matchObjectNumberAt s

/-- A greedy `\s+` followed by a continuation, with backtracking: the
longest whitespace run for which the continuation succeeds wins, and at
least one whitespace character must be consumed. -/
def tryWsThenAux (k : List Char → Option (List Char)) (rest : List Char) :
    Nat → Option (List Char)
  | 0 => none
  | n + 1 =>
    match k (rest.drop (n + 1)) with
    | some r => some r
    | none => tryWsThenAux k rest n

/-- One whitespace run then continuation `k`, starting from `rest`. -/
def tryWsThen (k : List Char → Option (List Char)) (rest : List Char) :
    Option (List Char) :=
  tryWsThenAux k rest (rest.takeWhile isJsWhitespace).length

/-- A final greedy `(.+)` capture: one or more characters up to (not
including) a line terminator. -/
def dotPlusCapture (s : List Char) : Option (List Char) :=
  let cap := s.takeWhile (fun c => !(c = '\n' || c = '\r'))
  if cap.isEmpty then none else some cap

/-- An optional literal-plus-whitespace group then a final capture, at
position `s`: the optional group is tried first (greedily), falling
back to the bare capture. -/
def matchOptThenDot (optWord : String) (s : List Char) : Option (List Char) :=
  let viaOpt :=
    if optWord.data.isPrefixOf s then
      tryWsThen dotPlusCapture (s.drop optWord.data.length)
    else none
  match viaOpt with
  | some r => some r
  | none => dotPlusCapture s

/-- A pattern of the shape alternation, whitespace run, optional word,
capture — anchored at `s` — returning the capture group. -/
def matchAltWsOptDotAt (alts : List String) (optWord : String) (s : List Char) :
    Option (List Char) :=
  match alts.find? (fun w => w.data.isPrefixOf s) with
  | some w => tryWsThen (matchOptThenDot optWord) (s.drop w.data.length)
  | none => none

/-- The lazy `(.+?)(?:\s+timeline)` tail of
`/(?:show|get)\s+(.+?)(?:\s+timeline)/i`: the shortest nonempty capture
followed by a whitespace run and the literal `timeline`. -/
def lazyTimelineAux (acc : List Char) : List Char → Option (List Char)
  | [] => none
  | c :: rest =>
    if c = '\n' || c = '\r' then none
    else
      let acc2 := acc ++ [c]
      let ws := rest.takeWhile isJsWhitespace
      if !ws.isEmpty && ("timeline".data.isPrefixOf (rest.drop ws.length)) then some acc2
      else lazyTimelineAux acc2 rest

/-- The show-or-get timeline pattern anchored at `s`. -/
def matchShowGetTimelineAt (s : List Char) : Option (List Char) :=
  match ["show", "get"].find? (fun w => w.data.isPrefixOf s) with
  | some w => tryWsThen (lazyTimelineAux []) (s.drop w.data.length)
  | none => none

/-- The cleaned search query built in the `search_artwork` branch of
`extractToolArgs`: lower-case, strip one leading trigger word, delete
the filler phrases, delete quotes, collapse whitespace, trim. -/
def extractSearchQuery (message : String) : String :=
  let s0 := (toLowerCase message).data
  let s1 := stripLeadingTrigger s0
  let s2 := removeFillerPhrases s1.length s1
  let s3 := removeQuotes s2
  let s4 := normalizeSpaces s3.length s3
  String.mk (jsTrim s4)

/-- Shallow embedding of `MCPClient.extractToolArgs`. -/
def extractToolArgs (message : String) (tool : MCPTool) : ToolArgs :=
  let msg := toLowerCase message
  if tool.name = "search_artwork" then
    let searchQuery := extractSearchQuery message
    match findObjectNumber searchQuery.data with
    | some m => .searchArgs (String.mk m) 10 none none
    | none => .searchArgs searchQuery 10 (some true) (some "relevance")
  else if tool.name = "get_artwork_details" then
    match scanMatch (matchAltWsOptDotAt ["details", "about", "information"] "about") msg.data with
    | some cap => .detailsArgs (String.mk (jsTrim (removeQuotes cap)))
    | none => .detailsArgs (String.mk (jsTrim (removeQuotes message.data)))
  else if tool.name = "get_artwork_image" then
    match scanMatch (matchAltWsOptDotAt ["image"] "of") msg.data with
    | some cap => .imageArgs (String.mk cap)
    | none => .imageArgs message
  else if tool.name = "get_user_sets" then
    .userSetsArgs 0 10
  else if tool.name = "get_user_set_details" then
    match scanMatch (matchAltWsOptDotAt ["collection"] "details") msg.data with
    | some cap => .setDetailsArgs (String.mk cap)
    | none => .setDetailsArgs message
  else if tool.name = "get_artist_timeline" then
    match scanMatch (matchAltWsOptDotAt ["timeline"] "of") msg.data with
    | some cap => .timelineArgs (String.mk cap) 10
    | none =>
      match scanMatch matchShowGetTimelineAt msg.data with
      | some cap => .timelineArgs (String.mk cap) 10
      | none => .timelineArgs message 10
  else if tool.name = "open_image_in_browser" then
    .openImageArgs message
  else
    .emptyArgs

/-! ### Context Assembler: per-tool formatters and
`MCPClient.getRelevantContext` -/

/-- JavaScript truthiness of a JSON value. -/
def Json.truthy : Json → Bool
  | .null => false
  | .bool b => b
  | .num n => !(n = 0)
  | .str s => !(s = "")
  | .arr _ => true
  | .obj _ => true

/-- Property lookup `j.k` (first field with the key, as JS objects have
unique keys). -/
def Json.getField : Json → String → Option Json
  | .obj fields, key => (fields.find? (fun f => f.1 == key)).map (fun f => f.2)
  | _, _ => none

mutual

/-- JavaScript string coercion of a value interpolated into a template
literal. -/
def Json.display : Json → String
  | .null => "null"
  | .bool b => if b then "true" else "false"
  | .num n => toString n
  | .str s => s
  | .arr items => Json.displayList items
  | .obj _ => "[object Object]"

def Json.displayList : List Json → String
  | [] => ""
  | [j] => Json.displayElem j
  | j :: rest => Json.displayElem j ++ "," ++ Json.displayList rest

def Json.displayElem : Json → String
  | .null => ""
  | j => Json.display j

end

/-- Template interpolation of a possibly-absent property. -/
def optDisplay : Option Json → String
  | none => "undefined"
  | some j => j.display

/-- Truthiness of a possibly-absent property (`undefined` is falsy). -/
def optTruthy : Option Json → Bool
  | none => false
  | some j => j.truthy

/-- An optional-chained length used as a guard: a nonempty array (or
nonempty string) is truthy. -/
def optLengthTruthy : Option Json → Bool
  | some (.arr items) => !items.isEmpty
  | some (.str s) => !(s = "")
  | _ => false

/-- JavaScript array join (elements coerced, `null` rendered empty). -/
def optJoin (j : Option Json) (sep : String) : String :=
  match j with
  | some (.arr items) => String.intercalate sep (items.map Json.displayElem)
  | _ => ""

/-- Embedding of `MCPClient.formatArtworkDetails`. -/
def formatArtworkDetails (result : Json) : String :=
  if !result.truthy then "Artwork details not found"
  else
    let imageUrl := (result.getField "webImage").bind (fun w => w.getField "url")
    "Here are the details of the artwork:\n\nTitle: "
      ++ optDisplay (result.getField "title")
      ++ "\nArtist: "
      ++ optDisplay (if optTruthy (result.getField "principalOrFirstMaker")
          then result.getField "principalOrFirstMaker" else result.getField "artist")
      ++ "\n"
      ++ (if optTruthy (result.getField "longTitle")
          then "Full Title: " ++ optDisplay (result.getField "longTitle") ++ "\n" else "")
      ++ "\n"
      ++ (if optTruthy (result.getField "description")
          then "Description: " ++ optDisplay (result.getField "description") ++ "\n" else "")
      ++ "\n"
      ++ (if optLengthTruthy (result.getField "materials")
          then "Materials: " ++ optJoin (result.getField "materials") ", " ++ "\n" else "")
      ++ "\n"
      ++ (if optLengthTruthy (result.getField "dimensions")
          then "Dimensions: " ++ optJoin (result.getField "dimensions") ", " ++ "\n" else "")
      ++ "\n"
      ++ (if optTruthy imageUrl then optDisplay imageUrl else "")
      ++ "\n\nYou can view more details on the Rijksmuseum website: "
      ++ optDisplay ((result.getField "links").bind (fun l => l.getField "web"))

/-- Embedding of `MCPClient.formatArtistTimeline`. -/
def formatArtistTimeline (result : Json) : String :=
  match result with
  | .arr items =>
    "Artist Timeline:\n\n"
      ++ String.intercalate "\n"
          (items.map (fun item =>
            optDisplay (item.getField "date") ++ ": " ++ optDisplay (item.getField "title")))
  | _ => "No timeline available"

/-- One numbered entry of `MCPClient.formatArtworkSearchResult`. -/
def formatSearchItem (index : Nat) (artwork : Json) : String :=
  toString (index + 1) ++ ". \x22" ++ optDisplay (artwork.getField "title")
    ++ "\x22 (" ++ optDisplay (artwork.getField "objectNumber") ++ ")\n         Created: "
    ++ (((optDisplay (artwork.getField "longTitle")).splitOn ", ").getLastD "")
    ++ "\n         "
    ++ (if optLengthTruthy (artwork.getField "productionPlaces")
        then "Location: " ++ optJoin (artwork.getField "productionPlaces") ", " else "")
    ++ "\n         "
    ++ (if optTruthy ((artwork.getField "webImage").bind (fun w => w.getField "url"))
        then "\n" ++ optDisplay ((artwork.getField "webImage").bind (fun w => w.getField "url"))
        else "")

/-- Embedding of `MCPClient.formatArtworkSearchResult`. -/
def formatArtworkSearchResult (result : Json) : String :=
  match result.getField "artworks" with
  | some (.arr (first :: restItems)) =>
    let artworks := first :: restItems
    "I found " ++ toString artworks.length ++ " artworks by "
      ++ optDisplay (first.getField "principalOrFirstMaker")
      ++ " in the Rijksmuseum collection:\n\n"
      ++ String.intercalate "\n\n" (artworks.enum.map (fun p => formatSearchItem p.1 p.2))
      ++ "\n\nI can provide more details about any of these artworks if you\x27re interested. Just ask about a specific artwork by its title or number."
  | _ => "No artworks found"

/-- The per-tool `switch (tool.name)` of `MCPClient.getRelevantContext`;
`stringify` stands for `JSON.stringify(result, null, 2)`. -/
def formatToolResult (stringify : Json → String) (name : String) (result : Json) : String :=
  if name = "search_artwork" then formatArtworkSearchResult result
  else if name = "get_artwork_details" then formatArtworkDetails result
  else if name = "get_artist_timeline" then formatArtistTimeline result
  else "Result from " ++ name ++ ": " ++ stringify result

/-- The fallback apology returned when a matched tool call fails
(the inner `catch` of `MCPClient.getRelevantContext`). -/
def apologyToolFailed : String :=
  "I apologize, but I couldn\x27t fetch the current, accurate information from the Rijksmuseum API at the moment. I can share what I know about this topic from my general knowledge, but please note that this information might not be completely up-to-date or accurate. Would you like me to proceed with what I know?"

/-- A successful `callTool` value as seen by the formatters (raw text
behaves as a JSON string). -/
def toolValueToJson : ToolValue Json → Json
  | .parsed j => j
  | .raw t => .str t

/-- Shallow embedding of `MCPClient.getRelevantContext`: walk the
registry in order; on the first matching tool, invoke it and format the
result (or degrade to the apology); return `none` when nothing matches.
`invoke` abstracts `this.callTool(tool.name, args)`. -/
def getRelevantContext (message : String) (stringify : Json → String)
    (invoke : String → ToolArgs → Except ToolCallError (ToolValue Json)) :
    List MCPTool → Option String
  | [] => none
  | tool :: rest =>
    if matchesToolIntent message tool then
      match invoke tool.name (extractToolArgs message tool) with
      | .ok result => some (formatToolResult stringify tool.name (toolValueToJson result))
      | .error _ => some apologyToolFailed
    else getRelevantContext message stringify invoke rest

/-! ### Conversation Bridge: `MCPClient.processMessage` -/

/-- Events sent to the presentation boundary
(`chat-token` / `chat-complete` / `chat-error`). -/
inductive ChatEvent where
  | token (content : String)
  | complete (content : String)
  | error (message : String)
deriving DecidableEq, Repr

/-- The error-context sniff of `processMessage`:
`context?.includes("apologize") || context?.includes("encountered an error")`. -/
def apologySignal (context : String) : Bool :=
  strIncludes context "apologize" || strIncludes context "encountered an error"

/-- The `fullContext` template literal of `processMessage`. -/
def buildFullContext (actionResult : Option String) (context : Option String)
    (message : String) : String :=
  "\nAssistant: I am an AI assistant with access to the Rijksmuseum\x27s art collection. When showing artwork details, I should include both the artwork information and its image URLs directly in my response without any prefixes or labels.\n"
    ++ (match actionResult with
        | some a => "\nLast action: " ++ a
        | none => "")
    ++ "\n"
    ++ (match context with
        | some c => "\nContext from Rijksmuseum: " ++ c
        | none => "")
    ++ "\n\nUser\x27s message: " ++ message
    ++ "\n\nI should respond to the user\x27s message using the context above when relevant. If there are image URLs in the context, I should include them in my response exactly as they appear, without adding any labels or prefixes like \x22Image URL:\x22."

/-- The events the `streamChat` callbacks emit: one `chat-token` per
token, then `chat-complete` on completion or `chat-error` on failure. -/
def streamEvents (outcome : StreamOutcome) : List ChatEvent :=
  (outcome.tokens.map ChatEvent.token)
    ++ (match outcome.failure with
        | none => [ChatEvent.complete (String.join outcome.tokens)]
        | some e => [ChatEvent.error e])

/-- Observable result of `processMessage`: events sent to the renderer,
whether the streaming entry point of the model backend was invoked,
and the history of the LLM service afterwards. -/
structure ProcessResult where
  events : List ChatEvent
  llmInvoked : Bool
  history : List LLMMessage
deriving DecidableEq, Repr

/-- Shallow embedding of `MCPClient.processMessage`: build the context
via `getRelevantContext`; if it signals an apology, emit it directly as
the complete response without consulting the model backend; otherwise
stream the answer of the model over the combined `fullContext`. -/
def processMessage (message : String) (actionResult : Option String)
    (stringify : Json → String)
    (invoke : String → ToolArgs → Except ToolCallError (ToolValue Json))
    (tools : List MCPTool) (history : List LLMMessage)
    (outcome : StreamOutcome) : ProcessResult :=
  match getRelevantContext message stringify invoke tools with
  | some context =>
    if apologySignal context then
      ⟨[ChatEvent.token context, ChatEvent.complete context], false, history⟩
    else
      let r := streamChat history message
          (some (buildFullContext actionResult (some context) message)) outcome
      ⟨streamEvents outcome, true, r.history⟩
  | none =>
    let r := streamChat history message
        (some (buildFullContext actionResult none message)) outcome
    ⟨streamEvents outcome, true, r.history⟩

/-! ## Claim theorems -/

/-- C9 (confirmed): the reset operation clears the conversation turn
history and changes nothing else — the recent-result cache (and the
tool registry) is unchanged by reset and by every sequence of resets. -/
theorem c9_reset_frame (st : MCPClientState) (n : Nat) :
    (clearChatHistory st).llmHistory = []
    ∧ (clearChatHistory st).recentArtworks = st.recentArtworks
    ∧ (clearChatHistory st).availableTools = st.availableTools
    ∧ (clearChatHistory^[n] st).recentArtworks = st.recentArtworks
    ∧ (clearChatHistory^[n] st).availableTools = st.availableTools := by
  refine ⟨rfl, rfl, rfl, ?_, ?_⟩
  · induction n generalizing st with
    | zero => simp
    | succ k ih => rw [Function.iterate_succ_apply]; exact (ih (clearChatHistory st)).trans rfl
  · induction n generalizing st with
    | zero => simp
    | succ k ih => rw [Function.iterate_succ_apply]; exact (ih (clearChatHistory st)).trans rfl

/-- C10 (confirmed): the outbound request of the streaming chat call
contains the user message twice — as the just-appended last history
entry with role `user`, and again as a final `user` element, combined
with the `Context:` prefix when a context is supplied. -/
theorem c10_duplicated_user_message (history : List LLMMessage) (message : String)
    (context : Option String) (outcome : StreamOutcome) :
    (streamChat history message context outcome).request
        = history ++ [⟨.user, message⟩, ⟨.user, combineContext context message⟩]
    ∧ combineContext none message = message
    ∧ ∀ c : String, combineContext (some c) message
        = "Context: " ++ c ++ "\n\nUser: " ++ message := by
  refine ⟨?_, rfl, fun c => rfl⟩
  unfold streamChat
  cases outcome.failure <;> simp

/-- C5 (confirmed): the user turn is appended to history before the
network call is issued (the request extends `history ++ [user M]`);
after a completed stream, history ends with the user turn followed by
the assistant turn holding the full concatenated response; after a
failed stream, history ends with the user turn only. -/
theorem c5_stream_history (history : List LLMMessage) (message : String)
    (context : Option String) (outcome : StreamOutcome) :
    ((streamChat history message context outcome).request
        = (history ++ [⟨.user, message⟩]) ++ [⟨.user, combineContext context message⟩])
    ∧ (outcome.failure = none →
        (streamChat history message context outcome).history
          = history ++ [⟨.user, message⟩, ⟨.assistant, String.join outcome.tokens⟩])
    ∧ (∀ e, outcome.failure = some e →
        (streamChat history message context outcome).history
          = history ++ [⟨.user, message⟩]) := by
  unfold streamChat
  cases h : outcome.failure <;> simp [h]

/-- C5 witness: a concrete successful stream and a concrete failed
stream, with the two history shapes. -/
theorem c5_stream_history_witness :
    (streamChat [] "hi" none ⟨["a", "b"], none⟩).history
        = [⟨.user, "hi"⟩, ⟨.assistant, "ab"⟩]
    ∧ (streamChat [] "hi" none ⟨["a"], some "boom"⟩).history
        = [⟨.user, "hi"⟩] := by
  constructor
  · exact ((c5_stream_history [] "hi" none ⟨["a", "b"], none⟩).2.1 rfl).trans (by decide)
  · exact ((c5_stream_history [] "hi" none ⟨["a"], some "boom"⟩).2.2 "boom" rfl).trans (by decide)

/-- C8 (confirmed): for every tool name outside the formatter table,
context assembly produces the generic `Result from <name>: <json>`
rendering (and, being total, never throws). -/
theorem c8_generic_fallback (stringify : Json → String) (name : String) (result : Json)
    (h1 : name ≠ "search_artwork") (h2 : name ≠ "get_artwork_details")
    (h3 : name ≠ "get_artist_timeline") :
    formatToolResult stringify name result
      = "Result from " ++ name ++ ": " ++ stringify result := by
  simp [formatToolResult, h1, h2, h3]

/-- C8 witness: a concrete unknown tool name takes the generic branch. -/
theorem c8_generic_fallback_witness :
    formatToolResult (fun _ => "null") "get_user_sets" Json.null
      = "Result from get_user_sets: null" :=
  (c8_generic_fallback (fun _ => "null") "get_user_sets" Json.null
    (by decide) (by decide) (by decide)).trans (by decide)

/-- C3 (confirmed): whenever the context built for a message contains
one of the fixed apology phrases, `processMessage` emits that context
text directly as a token event followed by a completion event with the
same text, and the streaming call of the model backend is not invoked. -/
theorem c3_apology_short_circuit (message : String) (actionResult : Option String)
    (stringify : Json → String)
    (invoke : String → ToolArgs → Except ToolCallError (ToolValue Json))
    (tools : List MCPTool) (history : List LLMMessage) (outcome : StreamOutcome)
    (context : String)
    (hctx : getRelevantContext message stringify invoke tools = some context)
    (hsig : apologySignal context = true) :
    processMessage message actionResult stringify invoke tools history outcome
      = ⟨[ChatEvent.token context, ChatEvent.complete context], false, history⟩ := by
  unfold processMessage
  rw [hctx]
  simp [hsig]

set_option maxRecDepth 4000 in
/-- C3 witness: a matched tool whose invocation fails yields the
apology context, which is emitted directly; the LLM is not invoked. -/
theorem c3_apology_short_circuit_witness :
    processMessage "find sunflowers" none (fun _ => "")
        (fun _ _ => .error .retryExhausted500) [⟨"search_artwork", none⟩] [] ⟨[], none⟩
      = ⟨[ChatEvent.token apologyToolFailed, ChatEvent.complete apologyToolFailed],
         false, []⟩ :=
  c3_apology_short_circuit "find sunflowers" none (fun _ => "")
    (fun _ _ => .error .retryExhausted500) [⟨"search_artwork", none⟩] [] ⟨[], none⟩
    apologyToolFailed (by decide) (by decide)

/-! ### Step lemmas for `callTool` -/

/-- Unfolding lemma: a 500 failure with retries left delays once and
recurses with `retryCount + 1`. -/
theorem callTool_retry_step {J : Type} (parseJson : String → Option J)
    (transport : Nat → AttemptOutcome) (retryCount : Nat)
    (h : transport retryCount = .failure (some 500)) (hlt : retryCount < MAX_RETRIES) :
    callTool parseJson transport retryCount =
      ⟨(callTool parseJson transport (retryCount + 1)).result,
       (callTool parseJson transport (retryCount + 1)).attempts + 1,
       RETRY_DELAY :: (callTool parseJson transport (retryCount + 1)).delays⟩ := by
  rw [callTool.eq_def, h]
  simp [hlt]

/-- Unfolding lemma: a 500 failure with no retries left surfaces the
retry-exhaustion error. -/
theorem callTool_exhausted_step {J : Type} (parseJson : String → Option J)
    (transport : Nat → AttemptOutcome) (retryCount : Nat)
    (h : transport retryCount = .failure (some 500)) (hge : ¬ retryCount < MAX_RETRIES) :
    callTool parseJson transport retryCount = ⟨.error .retryExhausted500, 1, []⟩ := by
  rw [callTool.eq_def, h]
  simp [hge]

/-- Unfolding lemma: any non-500 failure propagates at once. -/
theorem callTool_other_failure_step {J : Type} (parseJson : String → Option J)
    (transport : Nat → AttemptOutcome) (retryCount : Nat) (status : Option Nat)
    (h : transport retryCount = .failure status) (hne : status ≠ some 500) :
    callTool parseJson transport retryCount = ⟨.error (.transportError status), 1, []⟩ := by
  rw [callTool.eq_def, h]
  simp [hne]

/-- Unfolding lemma: a reply with parseable nonempty text succeeds. -/
theorem callTool_reply_parsed_step {J : Type} (parseJson : String → Option J)
    (transport : Nat → AttemptOutcome) (retryCount : Nat)
    (blocks : List ContentBlock) (value : J)
    (h : transport retryCount = .reply (some blocks))
    (hne : joinedTextContent blocks ≠ "")
    (hparse : parseJson (joinedTextContent blocks) = some value) :
    callTool parseJson transport retryCount = ⟨.ok (.parsed value), 1, []⟩ := by
  rw [callTool.eq_def, h]
  simp [hne, hparse]

/-- Unfolding lemma: a reply with nonempty text that fails to parse
yields the raw text. -/
theorem callTool_reply_raw_step {J : Type} (parseJson : String → Option J)
    (transport : Nat → AttemptOutcome) (retryCount : Nat) (blocks : List ContentBlock)
    (h : transport retryCount = .reply (some blocks))
    (hne : joinedTextContent blocks ≠ "")
    (hparse : parseJson (joinedTextContent blocks) = none) :
    callTool parseJson transport retryCount
      = ⟨.ok (.raw (joinedTextContent blocks)), 1, []⟩ := by
  rw [callTool.eq_def, h]
  simp [hne, hparse]

/-- Unfolding lemma: a reply whose joined text is empty, or with no
content array, is the invalid-response-format error. -/
theorem callTool_reply_invalid_step {J : Type} (parseJson : String → Option J)
    (transport : Nat → AttemptOutcome) (retryCount : Nat)
    (content : Option (List ContentBlock))
    (h : transport retryCount = .reply content)
    (hempty : ∀ blocks, content = some blocks → joinedTextContent blocks = "") :
    callTool parseJson transport retryCount = ⟨.error .invalidResponseFormat, 1, []⟩ := by
  rw [callTool.eq_def, h]
  cases content with
  | none => simp
  | some blocks => simp [hempty blocks rfl]

/-- C1 (confirmed): a tool call whose transport reports status 500 on
every attempt is attempted exactly 4 times (1 + 3 retries) with a fixed
1000 ms delay before each retry and then fails with the
retry-exhaustion error; any other status propagates after exactly one
attempt; a 500 on at most three attempts followed by a successful
attempt returns the successful payload. -/
theorem c1_retry_policy {J : Type} (parseJson : String → Option J)
    (transport : Nat → AttemptOutcome) :
    ((∀ i, transport i = .failure (some 500)) →
      callTool parseJson transport 0
        = ⟨.error .retryExhausted500, 4, [RETRY_DELAY, RETRY_DELAY, RETRY_DELAY]⟩
        ∧ RETRY_DELAY = 1000)
    ∧ (∀ status, status ≠ some 500 → transport 0 = .failure status →
        callTool parseJson transport 0 = ⟨.error (.transportError status), 1, []⟩)
    ∧ (∀ k blocks value, k ≤ MAX_RETRIES →
        (∀ i, i < k → transport i = .failure (some 500)) →
        transport k = .reply (some blocks) →
        joinedTextContent blocks ≠ "" →
        parseJson (joinedTextContent blocks) = some value →
        (callTool parseJson transport 0).result = .ok (.parsed value)
          ∧ (callTool parseJson transport 0).attempts = k + 1) := by
  refine ⟨?_, ?_, ?_⟩
  · intro h
    refine ⟨?_, rfl⟩
    rw [callTool_retry_step parseJson transport 0 (h 0) (by decide),
      callTool_retry_step parseJson transport 1 (h 1) (by decide),
      callTool_retry_step parseJson transport 2 (h 2) (by decide),
      callTool_exhausted_step parseJson transport 3 (h 3) (by decide)]
  · intro status hne h
    exact callTool_other_failure_step parseJson transport 0 status h hne
  · intro k blocks value hk hfail hreply hne hparse
    have hmr : MAX_RETRIES = 3 := rfl
    rw [hmr] at hk
    interval_cases k
    · rw [callTool_reply_parsed_step parseJson transport 0 blocks value hreply hne hparse]
      exact ⟨rfl, rfl⟩
    · rw [callTool_retry_step parseJson transport 0 (hfail 0 (by omega)) (by decide),
        callTool_reply_parsed_step parseJson transport 1 blocks value hreply hne hparse]
      exact ⟨rfl, rfl⟩
    · rw [callTool_retry_step parseJson transport 0 (hfail 0 (by omega)) (by decide),
        callTool_retry_step parseJson transport 1 (hfail 1 (by omega)) (by decide),
        callTool_reply_parsed_step parseJson transport 2 blocks value hreply hne hparse]
      exact ⟨rfl, rfl⟩
    · rw [callTool_retry_step parseJson transport 0 (hfail 0 (by omega)) (by decide),
        callTool_retry_step parseJson transport 1 (hfail 1 (by omega)) (by decide),
        callTool_retry_step parseJson transport 2 (hfail 2 (by omega)) (by decide),
        callTool_reply_parsed_step parseJson transport 3 blocks value hreply hne hparse]
      exact ⟨rfl, rfl⟩

/-- C1 witness: with a transport that always reports 500, the call is
attempted 4 times with three 1000 ms delays and exhausts its retries;
with a transport that reports 404, it fails after one attempt. -/
theorem c1_retry_policy_witness :
    callTool (J := Unit) (fun _ => none) (fun _ => .failure (some 500)) 0
        = ⟨.error .retryExhausted500, 4, [RETRY_DELAY, RETRY_DELAY, RETRY_DELAY]⟩
    ∧ callTool (J := Unit) (fun _ => none) (fun _ => .failure (some 404)) 0
        = ⟨.error (.transportError (some 404)), 1, []⟩ :=
  ⟨((c1_retry_policy (J := Unit) (fun _ => none) (fun _ => .failure (some 500))).1
      (fun _ => rfl)).1,
   (c1_retry_policy (J := Unit) (fun _ => none) (fun _ => .failure (some 404))).2.1
      (some 404) (by decide) rfl⟩

/-- C4 counterexample: an envelope whose content is two text blocks that
are both empty has "only empty text", yet the joined text is the
newline separator, so the call succeeds with raw text `"\n"` instead of
failing with the invalid-response-format error the claim requires. -/
theorem c4_envelope_counterexample :
    (callTool (J := Unit) (fun _ => none)
        (fun _ => .reply (some [⟨"text", ""⟩, ⟨"text", ""⟩])) 0).result
        = .ok (.raw "\n")
    ∧ (callTool (J := Unit) (fun _ => none)
        (fun _ => .reply (some [⟨"text", ""⟩, ⟨"text", ""⟩])) 0).result
        ≠ .error .invalidResponseFormat := by
  have h : callTool (J := Unit) (fun _ => none)
      (fun _ => .reply (some [⟨"text", ""⟩, ⟨"text", ""⟩])) 0
      = ⟨.ok (.raw "\n"), 1, []⟩ := by
    rw [callTool.eq_def]
    rfl
  rw [h]
  exact ⟨rfl, by simp⟩

/-- C4 (corrected): the invoker concatenates the text of all text-typed
blocks with a newline separator; a parseable concatenation yields the
parsed value, an unparseable one yields the raw text as a non-error
result; the invalid-response-format error occurs exactly when the
envelope has no content array or the joined concatenation is the empty
string (no text blocks, or a single empty text block) — not for every
envelope whose text blocks are all empty. -/
theorem c4_envelope_amended {J : Type} (parseJson : String → Option J)
    (blocks : List ContentBlock) :
    (callTool parseJson (fun _ => AttemptOutcome.reply none) 0
        = ⟨.error .invalidResponseFormat, 1, []⟩)
    ∧ (joinedTextContent blocks = "" →
        callTool parseJson (fun _ => AttemptOutcome.reply (some blocks)) 0
          = ⟨.error .invalidResponseFormat, 1, []⟩)
    ∧ (∀ value, joinedTextContent blocks ≠ "" →
        parseJson (joinedTextContent blocks) = some value →
        callTool parseJson (fun _ => AttemptOutcome.reply (some blocks)) 0
          = ⟨.ok (.parsed value), 1, []⟩)
    ∧ (joinedTextContent blocks ≠ "" →
        parseJson (joinedTextContent blocks) = none →
        callTool parseJson (fun _ => AttemptOutcome.reply (some blocks)) 0
          = ⟨.ok (.raw (joinedTextContent blocks)), 1, []⟩) := by
  refine ⟨?_, ?_, ?_, ?_⟩
  · exact callTool_reply_invalid_step parseJson _ 0 none rfl (fun b hb => by cases hb)
  · intro hempty
    exact callTool_reply_invalid_step parseJson _ 0 (some blocks) rfl
      (fun b hb => by cases hb; exact hempty)
  · intro value hne hparse
    exact callTool_reply_parsed_step parseJson _ 0 blocks value rfl hne hparse
  · intro hne hparse
    exact callTool_reply_raw_step parseJson _ 0 blocks rfl hne hparse

/-- C4 witness: a single empty text block joins to the empty string and
is rejected as invalid response format; a parseable single block is
returned parsed. -/
theorem c4_envelope_amended_witness :
    callTool (J := Unit) (fun _ => none)
        (fun _ => AttemptOutcome.reply (some [⟨"text", ""⟩])) 0
        = ⟨.error .invalidResponseFormat, 1, []⟩
    ∧ callTool (J := Unit) (fun _ => some ())
        (fun _ => AttemptOutcome.reply (some [⟨"text", "[]"⟩])) 0
        = ⟨.ok (.parsed ()), 1, []⟩ :=
  ⟨(c4_envelope_amended (J := Unit) (fun _ => none) [⟨"text", ""⟩]).2.1 (by decide),
   (c4_envelope_amended (J := Unit) (fun _ => some ()) [⟨"text", "[]"⟩]).2.2.1 ()
      (by decide) rfl⟩

/-! ### Helper lemmas for the intent matcher -/

/-- Characterization of `matchesToolIntent` by existence of a matching trigger. -/
theorem matchesToolIntent_eq_true_iff (message : String) (tool : MCPTool) :
    matchesToolIntent message tool = true ↔
      ∃ trigger ∈ toolTriggers tool.name,
        strIncludes (toLowerCase message) trigger = true := by
  simp [matchesToolIntent]

/-- Negative characterization: `matchesToolIntent` is false exactly when no trigger occurs. -/
theorem matchesToolIntent_eq_false_iff (message : String) (tool : MCPTool) :
    matchesToolIntent message tool = false ↔
      ∀ trigger ∈ toolTriggers tool.name,
        strIncludes (toLowerCase message) trigger = false := by
  simp [matchesToolIntent]

/-- The loop `findMatchingTool` returns `none` exactly when no tool matches. -/
theorem findMatchingTool_none_iff (message : String) (tools : List MCPTool) :
    findMatchingTool message tools = none ↔
      ∀ t ∈ tools, matchesToolIntent message t = false := by
  induction tools with
  | nil => simp [findMatchingTool]
  | cons a tl ih =>
    by_cases h : matchesToolIntent message a = true <;>
      simp [findMatchingTool, h, ih]

/-- A successful `findMatchingTool` splits the registry at the first
matching tool. -/
theorem findMatchingTool_some (message : String) (tools : List MCPTool) (t : MCPTool)
    (h : findMatchingTool message tools = some t) :
    ∃ pre post, tools = pre ++ t :: post ∧ matchesToolIntent message t = true
      ∧ ∀ t2 ∈ pre, matchesToolIntent message t2 = false := by
  induction tools with
  | nil => simp [findMatchingTool] at h
  | cons a tl ih =>
    by_cases ha : matchesToolIntent message a = true
    · simp only [findMatchingTool, if_pos ha, Option.some.injEq] at h
      subst h
      exact ⟨[], tl, rfl, ha, by simp⟩
    · simp only [findMatchingTool, if_neg ha] at h
      obtain ⟨pre, post, heq, hm, hpre⟩ := ih h
      refine ⟨a :: pre, post, by simp [heq], hm, ?_⟩
      intro t2 ht2
      rcases List.mem_cons.mp ht2 with rfl | ht2
      · exact Bool.eq_false_iff.mpr ha
      · exact hpre t2 ht2

/-- When no tool matches, the context-building loop yields no context
(and invokes nothing, whatever the invoker would do). -/
theorem getRelevantContext_none_of_no_match (message : String)
    (stringify : Json → String)
    (invoke : String → ToolArgs → Except ToolCallError (ToolValue Json))
    (tools : List MCPTool)
    (h : ∀ t ∈ tools, matchesToolIntent message t = false) :
    getRelevantContext message stringify invoke tools = none := by
  induction tools with
  | nil => rfl
  | cons a tl ih =>
    have ha := h a (by simp)
    rw [getRelevantContext, if_neg (by simp [ha])]
    exact ih (fun t ht => h t (by simp [ht]))

/-- C2 (confirmed): the intent matcher selects the first tool in
registry enumeration order with a trigger phrase occurring as a
substring of the lower-cased message; when no trigger of any tool occurs, it
returns `none`, no tool is invoked and no context is produced. -/
theorem c2_intent_matcher (message : String) (tools : List MCPTool) :
    (findMatchingTool message tools = none ↔
      ∀ t ∈ tools, ∀ trigger ∈ toolTriggers t.name,
        strIncludes (toLowerCase message) trigger = false)
    ∧ (∀ t, findMatchingTool message tools = some t →
        ∃ pre post, tools = pre ++ t :: post
          ∧ (∃ trigger ∈ toolTriggers t.name,
              strIncludes (toLowerCase message) trigger = true)
          ∧ ∀ t2 ∈ pre, ∀ trigger ∈ toolTriggers t2.name,
              strIncludes (toLowerCase message) trigger = false)
    ∧ (findMatchingTool message tools = none →
        ∀ stringify invoke,
          getRelevantContext message stringify invoke tools = none) := by
  refine ⟨?_, ?_, ?_⟩
  · rw [findMatchingTool_none_iff]
    constructor
    · intro h t ht
      exact (matchesToolIntent_eq_false_iff message t).mp (h t ht)
    · intro h t ht
      exact (matchesToolIntent_eq_false_iff message t).mpr (h t ht)
  · intro t h
    obtain ⟨pre, post, heq, hm, hpre⟩ := findMatchingTool_some message tools t h
    exact ⟨pre, post, heq, (matchesToolIntent_eq_true_iff message t).mp hm,
      fun t2 ht2 => (matchesToolIntent_eq_false_iff message t2).mp (hpre t2 ht2)⟩
  · intro h stringify invoke
    exact getRelevantContext_none_of_no_match message stringify invoke tools
      ((findMatchingTool_none_iff message tools).mp h)

/-- C2 witness: a message triggering nothing yields no match and no
context for a concrete registry. -/
theorem c2_intent_matcher_witness :
    getRelevantContext "hello there" (fun _ => "")
        (fun _ _ => .error .retryExhausted500)
        [⟨"search_artwork", none⟩, ⟨"get_artist_timeline", none⟩] = none :=
  (c2_intent_matcher "hello there"
      [⟨"search_artwork", none⟩, ⟨"get_artist_timeline", none⟩]).2.2
    (by decide) (fun _ => "") (fun _ _ => .error .retryExhausted500)

/-! ### Helper lemma for the `find sunflowers` scenario -/

/-- On the message `"find sunflowers"`, a tool matches exactly when it
is named `search_artwork`. -/
theorem matchesToolIntent_find_sunflowers (t : MCPTool) :
    matchesToolIntent "find sunflowers" t = true ↔ t.name = "search_artwork" := by
  by_cases h1 : t.name = "search_artwork"
  · simp only [matchesToolIntent]; rw [h1]; decide
  · by_cases h2 : t.name = "get_artwork_details"
    · simp only [matchesToolIntent]; rw [h2]; decide
    · by_cases h3 : t.name = "get_artwork_image"
      · simp only [matchesToolIntent]; rw [h3]; decide
      · by_cases h4 : t.name = "get_user_sets"
        · simp only [matchesToolIntent]; rw [h4]; decide
        · by_cases h5 : t.name = "get_user_set_details"
          · simp only [matchesToolIntent]; rw [h5]; decide
          · by_cases h6 : t.name = "open_image_in_browser"
            · simp only [matchesToolIntent]; rw [h6]; decide
            · by_cases h7 : t.name = "get_artist_timeline"
              · simp only [matchesToolIntent]; rw [h7]; decide
              · simp [matchesToolIntent, toolTriggers, h1, h2, h3, h4, h5, h6, h7]

/-- C6 (confirmed): for the message `"find sunflowers"` and any registry
containing `search_artwork`, the matcher selects a tool named
`search_artwork`, and argument extraction produces exactly
`{query: "sunflowers", pageSize: 10, imgonly: true, s: "relevance"}`. -/
theorem c6_find_sunflowers (tools : List MCPTool)
    (h : ∃ t ∈ tools, t.name = "search_artwork") :
    (∃ t, findMatchingTool "find sunflowers" tools = some t
        ∧ t.name = "search_artwork")
    ∧ (∀ t : MCPTool, t.name = "search_artwork" →
        extractToolArgs "find sunflowers" t
          = ToolArgs.searchArgs "sunflowers" 10 (some true) (some "relevance")) := by
  constructor
  · induction tools with
    | nil => simp at h
    | cons a tl ih =>
      by_cases ha : matchesToolIntent "find sunflowers" a = true
      · exact ⟨a, by simp [findMatchingTool, ha],
          (matchesToolIntent_find_sunflowers a).mp ha⟩
      · have hna : a.name ≠ "search_artwork" :=
          fun hn => ha ((matchesToolIntent_find_sunflowers a).mpr hn)
        have h2 : ∃ t ∈ tl, t.name = "search_artwork" := by
          obtain ⟨t, ht, hn⟩ := h
          rcases List.mem_cons.mp ht with rfl | htl
          · exact absurd hn hna
          · exact ⟨t, htl, hn⟩
        obtain ⟨t, hfind, hn⟩ := ih h2
        exact ⟨t, by simp [findMatchingTool, ha, hfind], hn⟩
  · intro t hn
    simp only [extractToolArgs]
    rw [hn]
    decide

/-- C6 witness: the concrete singleton registry. -/
theorem c6_find_sunflowers_witness :
    (∃ t, findMatchingTool "find sunflowers" [⟨"search_artwork", none⟩] = some t
        ∧ t.name = "search_artwork")
    ∧ extractToolArgs "find sunflowers" ⟨"search_artwork", none⟩
        = ToolArgs.searchArgs "sunflowers" 10 (some true) (some "relevance") := by
  have h := c6_find_sunflowers [⟨"search_artwork", none⟩]
    ⟨⟨"search_artwork", none⟩, by simp, rfl⟩
  exact ⟨h.1, h.2 ⟨"search_artwork", none⟩ rfl⟩

/-! ### Helper lemmas for the recent-result cache -/

/-- Cons-unfolding of the detail-fetch upsert. -/
theorem getArtworkDetailsUpsert_cons (a : Artwork) (tl : List Artwork)
    (o : String) (r : Artwork) :
    getArtworkDetailsUpsert (a :: tl) o r =
      if a.objectNumber == o then r :: tl
      else a :: getArtworkDetailsUpsert tl o r := by
  by_cases h : (a.objectNumber == o) = true
  · simp [getArtworkDetailsUpsert, findIndex, h]
  · simp only [getArtworkDetailsUpsert, findIndex, h, if_neg, Bool.false_eq_true,
      if_false]
    cases hfi : findIndex (fun x => x.objectNumber == o) tl with
    | none => simp
    | some i => simp

/-- After an upsert of an entry carrying identifier `o` into a cache
holding at most one entry with that identifier, the entries with
identifier `o` are exactly the upserted one. -/
theorem upsert_filter_eq (o : String) (r : Artwork)
    (hr : (r.objectNumber == o) = true) (cache : List Artwork)
    (hc : countById o cache ≤ 1) :
    (getArtworkDetailsUpsert cache o r).filter (fun a => a.objectNumber == o)
      = [r] := by
  induction cache with
  | nil => simp [getArtworkDetailsUpsert, findIndex, List.filter, hr]
  | cons a tl ih =>
    rw [getArtworkDetailsUpsert_cons]
    by_cases h : (a.objectNumber == o) = true
    · rw [if_pos h]
      have h0 : tl.filter (fun x => x.objectNumber == o) = [] := by
        have : countById o (a :: tl) = 1 + countById o tl := by
          simp [countById, List.filter_cons, h, Nat.add_comm]
        rw [this] at hc
        have : countById o tl = 0 := by omega
        simpa [countById, List.length_eq_zero] using this
      simp [List.filter_cons, hr, h0]
    · rw [if_neg (by simp [h])]
      have hc2 : countById o tl ≤ 1 := by
        have : countById o (a :: tl) = countById o tl := by
          simp [countById, List.filter_cons, h]
        omega
      rw [List.filter_cons_of_neg (by simp [h])]
      exact ih hc2

/-- The detail-fetch upsert never shrinks the cache. -/
theorem upsert_length_ge (cache : List Artwork) (o : String) (r : Artwork) :
    cache.length ≤ (getArtworkDetailsUpsert cache o r).length := by
  unfold getArtworkDetailsUpsert
  cases h : findIndex (fun a => a.objectNumber == o) cache with
  | none => simp
  | some i => simp

/-- C7 counterexample: the search mutation
(`this.recentArtworks = response`) is not an identifier-based upsert —
replaying it with an empty response shrinks a nonempty cache, refuting
"every mutation of the recent-result cache is an identifier-based
upsert, so the cache never shrinks". -/
theorem c7_cache_counterexample :
    (searchArtworksCacheUpdate
        [⟨"a", "SK-C-5", "The Night Watch", "Rembrandt van Rijn",
          none, none, none, none, none⟩] []).length
      < [(⟨"a", "SK-C-5", "The Night Watch", "Rembrandt van Rijn",
          none, none, none, none, none⟩ : Artwork)].length := by
  decide

/-- C7 (corrected): the detail-fetch mutation is an identifier-based
upsert — it never shrinks the cache, and upserting results bearing the
same identifier twice leaves exactly one entry for that identifier,
reflecting the latest data; the search mutation, however, replaces the
cache wholesale with the incoming result list (and can shrink it). -/
theorem c7_cache_amended (cache : List Artwork) (o : String) (r r2 : Artwork)
    (hc : countById o cache ≤ 1) (hr : r.objectNumber = o)
    (hr2 : r2.objectNumber = o) :
    cache.length ≤ (getArtworkDetailsUpsert cache o r).length
    ∧ countById o (getArtworkDetailsUpsert cache o r) = 1
    ∧ (getArtworkDetailsUpsert (getArtworkDetailsUpsert cache o r) o r2).filter
        (fun a => a.objectNumber == o) = [r2]
    ∧ ∀ response, searchArtworksCacheUpdate cache response = response := by
  have hrb : (r.objectNumber == o) = true := by simp [hr]
  have hrb2 : (r2.objectNumber == o) = true := by simp [hr2]
  have hf1 := upsert_filter_eq o r hrb cache hc
  have hcount1 : countById o (getArtworkDetailsUpsert cache o r) = 1 := by
    simp [countById, hf1]
  exact ⟨upsert_length_ge cache o r, hcount1,
    upsert_filter_eq o r2 hrb2 _ (by omega), fun _ => rfl⟩

/-- C7 witness: two upserts under the same identifier leave exactly the
latest entry. -/
theorem c7_cache_amended_witness :
    (getArtworkDetailsUpsert
        (getArtworkDetailsUpsert []
          "SK-C-5" ⟨"a", "SK-C-5", "Night Watch", "Rembrandt",
            none, none, none, none, none⟩)
        "SK-C-5" ⟨"a", "SK-C-5", "The Night Watch", "Rembrandt van Rijn",
          some "http://example.org/nw.jpg", none, none, none, none⟩).filter
        (fun a => a.objectNumber == "SK-C-5")
      = [⟨"a", "SK-C-5", "The Night Watch", "Rembrandt van Rijn",
          some "http://example.org/nw.jpg", none, none, none, none⟩] :=
  (c7_cache_amended [] "SK-C-5"
    ⟨"a", "SK-C-5", "Night Watch", "Rembrandt", none, none, none, none, none⟩
    ⟨"a", "SK-C-5", "The Night Watch", "Rembrandt van Rijn",
      some "http://example.org/nw.jpg", none, none, none, none⟩
    (by decide) rfl rfl).2.2.1
